import Mathlib

/-!
Verification development for the universal-download-manager repository.

The definitions below are a shallow embedding of the Python source under
src/backend: pure functions are translated to Lean functions, Python ints
(unbounded) become Int, Python floats arising from true division are
modelled with the rationals, and fallible code returns Except/Option.
Engine-reaching code (the aria2 RPC gateway) is modelled by explicit
oracles describing the remote engine together with a trace of the
primitive engine operations each service call performs.

String primitives (lower-casing, prefix/suffix tests, splitting,
stripping) are implemented structurally over character lists so that
concrete inputs evaluate inside the kernel; each models the behaviour of
the corresponding Python str method on the ASCII inputs that reach it.
-/

/-! ## String helpers (Python str semantics, structural) -/

/-- Characters stripped by the Python str.strip method (ASCII whitespace set). -/
def pyWhitespace (c : Char) : Bool :=
  c = ' ' || c = '\t' || c = '\n' || c = '\r' || c = '\x0b' || c = '\x0c'

/-- Python str.strip: drop leading and trailing whitespace. -/
def pyStrip (s : String) : String :=
  String.mk (((s.toList.dropWhile pyWhitespace).reverse.dropWhile pyWhitespace).reverse)

/-- ASCII lower-casing of one character (Python str.lower on the ASCII
inputs reaching the classifier). -/
def pyToLower (c : Char) : Char :=
  if 'A' ≤ c ∧ c ≤ 'Z' then Char.ofNat (c.toNat + 32) else c

/-- Python str.lower. -/
def lowerStr (s : String) : String := String.mk (s.toList.map pyToLower)

/-- Python s.startswith(pre). -/
def strStarts (s pre : String) : Bool := pre.toList.isPrefixOf s.toList

/-- Python s.endswith(suf). -/
def strEnds (s suf : String) : Bool := suf.toList.isSuffixOf s.toList

/-- Substring containment on character lists: models the Python `in` operator
for strings.  An empty pattern is contained in every string. -/
def subList : List Char → List Char → Bool
  | pat, [] => pat.isEmpty
  | pat, c :: t => pat.isPrefixOf (c :: t) || subList pat t

/-- Python `pat in s` for strings. -/
def strContains (s pat : String) : Bool := subList pat.toList s.toList

/-- Splitting a character list on a separator character; always returns at
least one (possibly empty) segment, like Python str.split(sep). -/
def splitCharsAux (sep : Char) : List Char → List Char → List (List Char)
  | [], acc => [acc.reverse]
  | c :: t, acc =>
    if c = sep then acc.reverse :: splitCharsAux sep t [] else splitCharsAux sep t (c :: acc)

/-- Python s.split(sep)[-1] for a one-character separator: the last segment. -/
def lastSeg (s : String) (sep : Char) : String :=
  String.mk ((splitCharsAux sep s.toList []).getLastD [])

/-! ## Data model (src/backend/models/download.py) -/

/-- Download type enumeration (class DownloadType). -/
inductive DownloadType where
  | magnet | http | https | ftp | ftps | torrent
deriving DecidableEq, Repr

/-- String value of a DownloadType (the enum values in the source). -/
def DownloadType.val : DownloadType → String
  | .magnet => "magnet"
  | .http => "http"
  | .https => "https"
  | .ftp => "ftp"
  | .ftps => "ftps"
  | .torrent => "torrent"

/-- Download status enumeration (class DownloadStatus). -/
inductive DownloadStatus where
  | waiting | active | paused | complete | error | removed
deriving DecidableEq, Repr

/-- DownloadStatus(status_str) with the ValueError fallback to WAITING used in
from_aria2_response: any unrecognized status string maps to waiting. -/
def DownloadStatus.ofString (s : String) : DownloadStatus :=
  if s = "waiting" then .waiting
  else if s = "active" then .active
  else if s = "paused" then .paused
  else if s = "complete" then .complete
  else if s = "error" then .error
  else if s = "removed" then .removed
  else .waiting

/-! ## Derived-value algorithms -/

/-- Python round(x, 1): round to one decimal place, modelled over the
rationals.  Mathlib round is round-half-up while Python uses half-to-even;
the two agree except at exact ties, which no statement below depends on. -/
def round1 (q : ℚ) : ℚ := ((round (q * 10) : ℤ) : ℚ) / 10

/-- DownloadTask.detect_download_type (models/download.py). -/
def DownloadTask.detect_download_type (url : String) : DownloadType :=
  if url = "" then .http
  else
    let u := lowerStr url
    if strStarts u "magnet:" then .magnet
    else if strStarts u "https:" then .https
    else if strStarts u "http:" then .http
    else if strStarts u "ftps:" then .ftps
    else if strStarts u "ftp:" then .ftp
    else if strEnds u ".torrent" then .torrent
    else .http

/-- Kind detection as worded by the specification: check, case-insensitively
and in this order with first match winning, the prefixes magnet:, https:,
http:, ftps:, ftp:, then a filename ending in .torrent, and classify anything
else (including the empty string) as http.  Stated separately from the source
translation so the two can be compared. -/
def detect_download_type_spec (url : String) : DownloadType :=
  let u := lowerStr url
  if strStarts u "magnet:" then .magnet
  else if strStarts u "https:" then .https
  else if strStarts u "http:" then .http
  else if strStarts u "ftps:" then .ftps
  else if strStarts u "ftp:" then .ftp
  else if strEnds u ".torrent" then .torrent
  else .http

/-- Nonnegative rational remainder a mod b (b positive), matching the Python
float % operator on the nonnegative values reached below. -/
def qMod (a b : ℚ) : ℚ := a - b * ((⌊a / b⌋ : ℤ) : ℚ)

/-- DownloadTask.calculate_eta (models/download.py).  Python true division
produces a float, modelled as a rational; int() truncates, which on the
positive values reached here coincides with the floor. -/
def DownloadTask.calculate_eta (total_length completed_length download_speed : ℤ) : String :=
  if download_speed ≤ 0 ∨ total_length ≤ completed_length then "unknown"
  else
    let remaining_seconds : ℚ := ((total_length - completed_length : ℤ) : ℚ) / ((download_speed : ℤ) : ℚ)
    if remaining_seconds < 60 then toString ⌊remaining_seconds⌋ ++ "s"
    else if remaining_seconds < 3600 then
      toString ⌊remaining_seconds / 60⌋ ++ "m"
    else
      toString ⌊remaining_seconds / 3600⌋ ++ "h "
        ++ toString ⌊qMod remaining_seconds 3600 / 60⌋ ++ "m"

/-- TimeFormatter.format_duration (utils/formatters.py).  The argument is the
float number of seconds; the source first truncates it to an int, which on
the positive values reached here coincides with the floor. -/
def TimeFormatter.format_duration (seconds : ℚ) : String :=
  if seconds ≤ 0 then "0s"
  else
    let s : ℤ := ⌊seconds⌋
    if s < 60 then toString s ++ "s"
    else if s < 3600 then
      let minutes := s / 60
      let remaining_seconds := s % 60
      if remaining_seconds > 0 then toString minutes ++ "m " ++ toString remaining_seconds ++ "s"
      else toString minutes ++ "m"
    else if s < 86400 then
      let hours := s / 3600
      let remaining_minutes := (s % 3600) / 60
      if remaining_minutes > 0 then toString hours ++ "h " ++ toString remaining_minutes ++ "m"
      else toString hours ++ "h"
    else
      let days := s / 86400
      let remaining_hours := (s % 86400) / 3600
      if remaining_hours > 0 then toString days ++ "d " ++ toString remaining_hours ++ "h"
      else toString days ++ "d"

/-- TimeFormatter.format_eta (utils/formatters.py). -/
def TimeFormatter.format_eta (total_length completed_length download_speed : ℤ) : String :=
  if download_speed ≤ 0 ∨ total_length ≤ completed_length then "unknown"
  else
    TimeFormatter.format_duration
      (((total_length - completed_length : ℤ) : ℚ) / ((download_speed : ℤ) : ℚ))

/-- ProgressFormatter.format_progress (utils/formatters.py). -/
def ProgressFormatter.format_progress (completed total : ℤ) : ℚ :=
  if total ≤ 0 then 0
  else round1 (((completed : ℤ) : ℚ) / ((total : ℤ) : ℚ) * 100)

example : DownloadTask.detect_download_type "MAGNET:?xt=a" = .magnet := by decide
example : DownloadTask.detect_download_type "x.TORRENT" = .torrent := by decide
example : DownloadTask.detect_download_type "" = .http := by decide
example : pyStrip "  ab c\n" = "ab c" := by decide
example : lastSeg "downloads/movies/a.mp4" '/' = "a.mp4" := by decide
example : strContains "magnet:?xt=u" "xt=" = true := by decide

/-! ## URL grammar (the regular expressions in utils/validators.py and
models/download.py)

The HTTP/HTTPS pattern is
  https?://((label\.)+tld\.?|localhost|d{1,3}.d{1,3}.d{1,3}.d{1,3})(:d+)?(/?|[/?]NonSpace+)
and the FTP/FTPS pattern differs only in the scheme and in the tail (/anything
optional).  Both are compiled with IGNORECASE and matched against the whole
string (re.match anchored at the start, with a final end anchor).  The matcher
below is a specialized backtracking matcher: each component maps a character
list to the list of possible remainders, and a string matches when some chain
of remainders reaches a tail that the final component accepts.  Matching is
case-insensitive via prior lower-casing, which is equivalent for this pattern.
-/

/-- ASCII digit. -/
def isDig (c : Char) : Bool := '0' ≤ c && c ≤ '9'

/-- Lower-case ASCII letter (the pattern classes are matched after
lower-casing). -/
def isLow (c : Char) : Bool := 'a' ≤ c && c ≤ 'z'

/-- Character class [A-Z0-9] under IGNORECASE, after lower-casing. -/
def isAlnum (c : Char) : Bool := isLow c || isDig c

/-- Character class [A-Z0-9-] under IGNORECASE, after lower-casing. -/
def isAlnumDash (c : Char) : Bool := isAlnum c || c = '-'

/-- Python regex class \S restricted to ASCII: any character that is not
whitespace. -/
def isNonSpace (c : Char) : Bool := !(pyWhitespace c)

/-- Remainders after consuming between zero and n characters satisfying p. -/
def repUpTo (p : Char → Bool) : Nat → List Char → List (List Char)
  | 0, l => [l]
  | _ + 1, [] => [[]]
  | n + 1, c :: cs => (c :: cs) :: (if p c then repUpTo p n cs else [])

/-- Remainders after consuming one character satisfying p and then up to n
more: the class{1,n+1} quantifier. -/
def repOneUpTo (p : Char → Bool) (n : Nat) : List Char → List (List Char)
  | [] => []
  | c :: cs => if p c then repUpTo p n cs else []

/-- Remainders after consuming one or more characters satisfying p (the +
quantifier). -/
def repPlus (p : Char → Bool) : List Char → List (List Char)
  | [] => []
  | c :: cs => if p c then cs :: repPlus p cs else []

/-- Remainders after one domain label [A-Z0-9]([A-Z0-9-]{0,61}[A-Z0-9])?. -/
def labelRem : List Char → List (List Char)
  | [] => []
  | c :: cs =>
    if isAlnum c then
      cs :: (repUpTo isAlnumDash 61 cs).filterMap (fun r =>
        match r with
        | d :: ds => if isAlnum d then some ds else none
        | [] => none)
    else []

/-- Keep only remainders that start with the given literal character,
consuming it. -/
def afterChar (c : Char) (rs : List (List Char)) : List (List Char) :=
  rs.filterMap (fun r => match r with
    | d :: ds => if d = c then some ds else none
    | [] => none)

/-- Remainders after one or more groups (label '.'), with fuel bounding the
number of groups (each consumes at least two characters, so the length of the
input always suffices). -/
def labelsPlusAux : Nat → List Char → List (List Char)
  | 0, _ => []
  | fuel + 1, l =>
    let afterOne := afterChar '.' (labelRem l)
    afterOne ++ afterOne.flatMap (labelsPlusAux fuel)

/-- Remainders after the TLD part [A-Z]{2,6}\.? . -/
def tldRem (l : List Char) : List (List Char) :=
  let core :=
    match l with
    | a :: b :: cs => if isLow a && isLow b then repUpTo isLow 4 cs else []
    | _ => []
  core ++ afterChar '.' core

/-- Remainders after a full domain (label '.')+ TLD. -/
def domainRem (l : List Char) : List (List Char) :=
  (labelsPlusAux l.length l).flatMap tldRem

/-- Remainders after the literal "localhost". -/
def localhostRem (l : List Char) : List (List Char) :=
  if ("localhost".toList).isPrefixOf l then [l.drop 9] else []

/-- Remainders after a dotted-quad \d{1,3}\.\d{1,3}\.\d{1,3}\.\d{1,3}. -/
def ipv4Rem (l : List Char) : List (List Char) :=
  let d13 := repOneUpTo isDig 2
  let step2 := (afterChar '.' (d13 l)).flatMap d13
  let step3 := (afterChar '.' step2).flatMap d13
  (afterChar '.' step3).flatMap d13

/-- Remainders after the host alternation (domain | localhost | ipv4). -/
def hostRem (l : List Char) : List (List Char) :=
  domainRem l ++ localhostRem l ++ ipv4Rem l

/-- Remainders after the optional port (?::\d+)? . -/
def portRem (l : List Char) : List (List Char) :=
  l :: (match l with
    | ':' :: cs => repPlus isDig cs
    | _ => [])

/-- End test for the HTTP tail (?:/?|[/?]\S+)$ . -/
def httpTailOk : List Char → Bool
  | [] => true
  | c :: cs =>
    (c = '/' && cs.isEmpty) ||
    ((c = '/' || c = '?') && !cs.isEmpty && cs.all isNonSpace)

/-- End test for the FTP tail (?:/.*)?$ (the dot does not match a newline). -/
def ftpTailOk : List Char → Bool
  | [] => true
  | c :: cs => c = '/' && cs.all (· ≠ '\n')

/-- Strip a literal scheme, returning the remainder when it is a prefix. -/
def afterLit (lit : String) (l : List Char) : List (List Char) :=
  if lit.toList.isPrefixOf l then [l.drop lit.toList.length] else []

/-- Whole-string match of the HTTP/HTTPS URL pattern, after lower-casing. -/
def matchHttpUrl (s : String) : Bool :=
  let l := (lowerStr s).toList
  (afterLit "http://" l ++ afterLit "https://" l).any (fun h =>
    (hostRem h).any (fun p => (portRem p).any httpTailOk))

/-- Whole-string match of the FTP/FTPS URL pattern, after lower-casing. -/
def matchFtpUrl (s : String) : Bool :=
  let l := (lowerStr s).toList
  (afterLit "ftp://" l ++ afterLit "ftps://" l).any (fun h =>
    (hostRem h).any (fun p => (portRem p).any ftpTailOk))

example : matchHttpUrl "http://example.com/a.mp4" = true := by decide
example : matchHttpUrl "https://example.org/b" = true := by decide
example : matchHttpUrl "HTTP://LOCALHOST:8080/x" = true := by decide
example : matchHttpUrl "http://192.168.0.1/" = true := by decide
example : matchHttpUrl "http://example.com" = true := by decide
example : matchHttpUrl "not a url" = false := by decide
example : matchHttpUrl "http://x" = false := by decide
example : matchHttpUrl "http://example.com/a b" = false := by decide
example : matchFtpUrl "ftp://example.com/dir/f.txt" = true := by decide
example : matchFtpUrl "ftps://localhost" = true := by decide
example : matchFtpUrl "ftp://x" = false := by decide

/-! ## Configuration constants (src/backend/config/settings.py)

Values are environment-overridable in the source; the embedding uses the
defaults that apply when no environment variable is set. -/

/-- Config.MAX_CONNECTIONS_PER_SERVER (default 4). -/
def Config.MAX_CONNECTIONS_PER_SERVER : ℤ := 4

/-- Config.MAX_RETRIES (default 3). -/
def Config.MAX_RETRIES : ℤ := 3

/-- Config.RETRY_WAIT in seconds (default 5). -/
def Config.RETRY_WAIT : ℤ := 5

/-- Config.DOWNLOAD_TIMEOUT in seconds (default 60). -/
def Config.DOWNLOAD_TIMEOUT : ℤ := 60

/-- Config.USER_AGENT. -/
def Config.USER_AGENT : String := "Universal Download Manager/1.0"

/-- Config.BT_MAX_PEERS (default 50). -/
def Config.BT_MAX_PEERS : ℤ := 50

/-- Config.SEED_TIME in minutes (default 60). -/
def Config.SEED_TIME : ℤ := 60

/-- The string str(Config.SEED_RATIO) for the default seed ratio 1.0. -/
def Config.seedRatioText : String := "1.0"

/-- Config.BT_LISTEN_PORT: None unless the environment sets it. -/
def Config.BT_LISTEN_PORT : Option ℤ := none

/-- The destination directory str(DOWNLOADS_DIR).  At runtime this is an
absolute path derived from the installation directory; it is treated as an
opaque string constant here. -/
def Config.DOWNLOADS_DIR_STR : String := "downloads"

/-- Config.FILE_CATEGORIES: the fixed extension-to-category table, in source
order (Python dict iteration follows insertion order). -/
def Config.FILE_CATEGORIES : List (String × List String) :=
  [("video", [".mp4", ".avi", ".mkv", ".mov", ".wmv", ".flv", ".webm", ".m4v"]),
   ("audio", [".mp3", ".wav", ".flac", ".aac", ".ogg", ".wma", ".m4a"]),
   ("image", [".jpg", ".jpeg", ".png", ".gif", ".bmp", ".svg", ".webp"]),
   ("document", [".pdf", ".doc", ".docx", ".txt", ".rtf", ".odt"]),
   ("archive", [".zip", ".rar", ".7z", ".tar", ".gz", ".bz2"]),
   ("software", [".exe", ".msi", ".deb", ".rpm", ".dmg", ".pkg"])]

/-- DownloadTask.get_file_category (models/download.py). -/
def DownloadTask.get_file_category (file_name : String) : String :=
  if file_name = "" then "other"
  else
    let file_ext :=
      if strContains file_name "." then "." ++ lowerStr (lastSeg file_name '.') else ""
    match Config.FILE_CATEGORIES.find? (fun ce => ce.2.contains file_ext) with
    | some ce => ce.1
    | none => "other"

/-- Translation lookup i18n.t (services/i18n_service.py).  The locale data
files are not part of the instrumented sources; I18nService.translate falls
back to returning the key itself whenever no loaded table resolves it, which
is the behaviour modelled here.  No claim depends on the translated text. -/
def i18n_t (key : String) : String := key

/-! ## Validation (utils/validators.py and models/download.py) -/

/-- UrlValidator.validate_magnet (utils/validators.py).  The final loop over
required_params = [xt] re-checks the xt= containment already established. -/
def UrlValidator.validate_magnet (url : String) : Bool × String :=
  if !(strStarts url "magnet:") then (false, "Invalid magnet link format")
  else if !(strContains url "xt=") then (false, "Magnet link missing hash information")
  else
    match ["xt"].find? (fun param => !(strContains url (param ++ "="))) with
    | some param => (false, "Magnet link missing required parameter: " ++ param)
    | none => (true, "")

/-- UrlInfo record (models/download.py). -/
structure UrlInfo where
  url : String
  download_type : DownloadType
  is_valid : Bool := true
  error_message : String := ""
  file_name : String := ""
  estimated_size : ℤ := 0
deriving DecidableEq, Repr

/-- UrlInfo.validate_url (models/download.py). -/
def UrlInfo.validate_url (url : String) (download_type : DownloadType) : Bool × String :=
  if url = "" then (false, "URL cannot be empty")
  else
    match download_type with
    | .magnet =>
      if !(strStarts url "magnet:") then (false, "Invalid magnet link format")
      else if !(strContains url "xt=") then (false, "Magnet link missing hash information")
      else (true, "")
    | .http | .https =>
      if !(matchHttpUrl url) then (false, "Invalid HTTP/HTTPS URL format") else (true, "")
    | .ftp | .ftps =>
      if !(matchFtpUrl url) then (false, "Invalid FTP/FTPS URL format") else (true, "")
    | .torrent => (true, "")

/-- Path component of urllib.parse.urlparse (Python standard library,
external to the repository), modelled for the URL shapes reaching
UrlInfo.from_url: with a scheme separator, the path starts at the first
slash after the authority and stops before the query or fragment; without
one, the whole string up to the query or fragment is the path.  This
helper locates the remainder after the scheme separator. -/
def findSchemeSep : List Char → Option (List Char)
  | [] => none
  | c :: t => if ("://".toList).isPrefixOf (c :: t) then some ((c :: t).drop 3) else findSchemeSep t

/-- Path component of urllib.parse.urlparse, see findSchemeSep. -/
def urlparsePath (s : String) : String :=
  match findSchemeSep s.toList with
  | some rest =>
    let afterNet := rest.dropWhile (fun c => !(c = '/' || c = '?' || c = '#'))
    match afterNet with
    | '/' :: _ => String.mk (afterNet.takeWhile (fun c => !(c = '?' || c = '#')))
    | _ => ""
  | none => String.mk (s.toList.takeWhile (fun c => !(c = '?' || c = '#')))

/-- UrlInfo.from_url (models/download.py). -/
def UrlInfo.from_url (url0 : String) : UrlInfo :=
  let url := pyStrip url0
  let download_type := DownloadTask.detect_download_type url
  let v := UrlInfo.validate_url url download_type
  let file_name :=
    if download_type = .http ∨ download_type = .https ∨
       download_type = .ftp ∨ download_type = .ftps then
      let p := urlparsePath url
      if p ≠ "" then lastSeg p '/' else ""
    else ""
  { url := url, download_type := download_type, is_valid := v.1,
    error_message := v.2, file_name := file_name }

/-- UrlValidator.validate_url_list (utils/validators.py): strip each entry,
skip the empty ones, classify and validate the rest. -/
def UrlValidator.validate_url_list (urls : List String) : List UrlInfo :=
  urls.filterMap (fun u =>
    let u := pyStrip u
    if u = "" then none else some (UrlInfo.from_url u))

example : (UrlInfo.from_url "http://example.com/a.mp4").is_valid = true := by decide
example : (UrlInfo.from_url "http://example.com/a.mp4").file_name = "a.mp4" := by decide
example : (UrlInfo.from_url "not a url").is_valid = false := by decide
example : (UrlInfo.from_url "not a url").error_message = "Invalid HTTP/HTTPS URL format" := by decide
example : (UrlValidator.validate_magnet "magnet:?xt=urn:btih:ABC").1 = true := by decide
example : UrlValidator.validate_magnet "magnet:?dn=foo" =
    (false, "Magnet link missing hash information") := by decide
example : UrlValidator.validate_magnet "http://x" = (false, "Invalid magnet link format") := by decide

/-! ## Task reconciliation (models/download.py) -/

/-- The reconciled task model (class DownloadTask).  The wall-clock fields
created_at / started_at / completed_at are process-local datetimes orthogonal
to every claim and are omitted from the embedding. -/
structure DownloadTask where
  gid : String
  url : String
  download_type : DownloadType
  status : DownloadStatus := .waiting
  file_name : String := ""
  file_path : String := ""
  total_length : ℤ := 0
  completed_length : ℤ := 0
  download_speed : ℤ := 0
  upload_speed : ℤ := 0
  progress : ℚ := 0
  eta : String := ""
  connections : ℤ := 0
  num_seeders : ℤ := 0
  num_leechers : ℤ := 0
  error_message : String := ""
  retry_count : ℤ := 0
  priority : ℤ := 0
  category : String := ""
deriving DecidableEq, Repr

/-- One raw engine status record, as consumed by from_aria2_response.  A
files value of none models an absent files key (the source substitutes a
single empty entry for the first access and an empty list for the second);
each file entry carries its path and the uri strings of its uris list.
Numeric fields hold the values after the int() conversions the source
applies; the engine delivers them as decimal strings. -/
structure Aria2File where
  path : String := ""
  uris : List String := []
deriving DecidableEq, Repr

/-- Raw engine record for one task. -/
structure Aria2Record where
  gid : String := ""
  files : Option (List Aria2File) := none
  totalLength : ℤ := 0
  completedLength : ℤ := 0
  downloadSpeed : ℤ := 0
  uploadSpeed : ℤ := 0
  status : String := "waiting"
  connections : ℤ := 0
  numSeeders : ℤ := 0
  numLeechers : ℤ := 0
deriving DecidableEq, Repr

/-- Body of DownloadTask.from_aria2_response once the first file entry (and
with it the source url and file path) has been resolved. -/
def DownloadTask.reconcile (d : Aria2Record) (url file_path : String) : DownloadTask :=
  let file_name := if file_path ≠ "" then lastSeg file_path '/' else ""
  { gid := d.gid,
    url := url,
    download_type := DownloadTask.detect_download_type url,
    status := DownloadStatus.ofString d.status,
    file_name := file_name,
    file_path := file_path,
    total_length := d.totalLength,
    completed_length := d.completedLength,
    download_speed := d.downloadSpeed,
    upload_speed := d.uploadSpeed,
    progress := round1 (if d.totalLength > 0 then
      ((d.completedLength : ℤ) : ℚ) / ((d.totalLength : ℤ) : ℚ) * 100 else 0),
    eta := DownloadTask.calculate_eta d.totalLength d.completedLength d.downloadSpeed,
    connections := d.connections,
    num_seeders := d.numSeeders,
    num_leechers := d.numLeechers,
    category := DownloadTask.get_file_category file_name }

/-- DownloadTask.from_aria2_response (models/download.py).  Accessing
files[0] on a record whose files key holds an empty list raises IndexError,
modelled as the error case; an absent files key yields the defaults. -/
def DownloadTask.from_aria2_response (d : Aria2Record) : Except String DownloadTask :=
  match d.files with
  | some [] => .error "list index out of range"
  | some (f :: _) => .ok (DownloadTask.reconcile d (f.uris.headD "") f.path)
  | none => .ok (DownloadTask.reconcile d "" "")

/-! ## Engine gateway (src/backend/services/aria2_service.py)

Remote calls are modelled by an oracle describing the engine.  Each service
operation returns its Python result together with the trace of primitive
engine operations it performed; the trace records one entry per remote call
issued by rpc_call and one entry per start-and-wait daemon launch cycle.
In Aria2Service.rpc_call a transport failure, a malformed response and an
error member in the response all collapse to a None result, so each oracle
field delivers the Optional result of the corresponding remote method: none
covers all of those failure shapes at once. -/

/-- One primitive engine-reaching operation. -/
inductive EngOp where
  | rpc (method : String)
  | startDaemon
deriving DecidableEq, Repr

/-- Oracle for the remote engine.  tellWaiting and tellStopped are modelled
from the documented aria2 pagination semantics (offset, num) over the full
engine queues held in the waiting and stopped fields; a none value for a
queue models an unreachable transport for that call. -/
structure Engine where
  addUriResp : List String → List (String × String) → Option String
  tellStatusResp : String → Option Aria2Record
  active : Option (List Aria2Record)
  waiting : Option (List Aria2Record)
  stopped : Option (List Aria2Record)
  removeResp : Bool → String → Option String

/-- Aria2Service.add_uri: one aria2.addUri remote call; a falsy result (no
response, error response, or empty gid string) becomes None. -/
def Aria2Service.add_uri (e : Engine) (uris : List String)
    (options : List (String × String)) : Option String × List EngOp :=
  (match e.addUriResp uris options with
   | some g => if g = "" then none else some g
   | none => none,
   [.rpc "aria2.addUri"])

/-- Aria2Service.rpc_call for aria2.tellActive, with the `or []` default the
caller applies. -/
def Aria2Service.tellActive (e : Engine) : List Aria2Record × List EngOp :=
  (e.active.getD [], [.rpc "aria2.tellActive"])

/-- Aria2Service.rpc_call for aria2.tellWaiting [offset, num], with the
`or []` default the caller applies. -/
def Aria2Service.tellWaiting (e : Engine) (offset num : ℕ) :
    List Aria2Record × List EngOp :=
  ((e.waiting.map (fun l => (l.drop offset).take num)).getD [], [.rpc "aria2.tellWaiting"])

/-- Aria2Service.rpc_call for aria2.tellStopped [offset, num], with the
`or []` default the caller applies. -/
def Aria2Service.tellStopped (e : Engine) (offset num : ℕ) :
    List Aria2Record × List EngOp :=
  ((e.stopped.map (fun l => (l.drop offset).take num)).getD [], [.rpc "aria2.tellStopped"])

/-- Per-record reconciliation loop body of Aria2Service.get_downloads: a
record whose reconciliation raises is skipped with a logged warning. -/
def reconcileList (records : List Aria2Record) : List DownloadTask :=
  records.filterMap (fun r => (DownloadTask.from_aria2_response r).toOption)

/-- Aria2Service.get_downloads (aria2_service.py): fetch the queues selected
by the status argument — all = active + waiting + stopped, with waiting and
stopped windowed by the fixed [0, 100] parameters — and reconcile each
record, skipping malformed ones. -/
def Aria2Service.get_downloads (e : Engine) (status : String) :
    List DownloadTask × List EngOp :=
  if status = "all" then
    let (a, t1) := Aria2Service.tellActive e
    let (w, t2) := Aria2Service.tellWaiting e 0 100
    let (s, t3) := Aria2Service.tellStopped e 0 100
    (reconcileList (a ++ w ++ s), t1 ++ t2 ++ t3)
  else if status = "active" then
    let (a, t1) := Aria2Service.tellActive e
    (reconcileList a, t1)
  else if status = "waiting" then
    let (w, t2) := Aria2Service.tellWaiting e 0 100
    (reconcileList w, t2)
  else if status = "stopped" then
    let (s, t3) := Aria2Service.tellStopped e 0 100
    (reconcileList s, t3)
  else ([], [])

/-- Aria2Service.get_download: aria2.tellStatus for one gid, reconciled; a
missing response or a failed reconciliation yields None. -/
def Aria2Service.get_download (e : Engine) (gid : String) :
    Option DownloadTask × List EngOp :=
  (match e.tellStatusResp gid with
   | some data => (DownloadTask.from_aria2_response data).toOption
   | none => none,
   [.rpc "aria2.tellStatus"])

/-- Aria2Service.remove_download: aria2.remove or aria2.forceRemove; success
means the remote result echoes the gid. -/
def Aria2Service.remove_download (e : Engine) (gid : String) (force : Bool) :
    Bool × List EngOp :=
  (e.removeResp force gid = some gid,
   [.rpc (if force then "aria2.forceRemove" else "aria2.remove")])

/-! ## Orchestration facade (src/backend/services/download_service.py) -/

/-- Uniform success/failure envelope for single-task facade operations.
Fields absent from the Python dict for a given outcome keep their default
values here. -/
structure Envelope where
  success : Bool
  task_id : String := ""
  url : String := ""
  download_type : String := ""
  filename : String := ""
  message : String := ""
  error : String := ""
  error_code : String := ""
deriving DecidableEq, Repr

/-- Python dict.update for string-keyed option dictionaries: existing keys
keep their position with the new value, new keys are appended in order. -/
def dictUpdate (base overrides : List (String × String)) : List (String × String) :=
  base.map (fun kv =>
    match overrides.find? (fun ov => ov.1 = kv.1) with
    | some ov => ov
    | none => kv)
  ++ overrides.filter (fun ov => !(base.any (fun kv => kv.1 = ov.1)))

/-- DownloadService._prepare_download_options. -/
def DownloadService.prepare_download_options (url_info : UrlInfo)
    (custom_options : List (String × String)) : List (String × String) :=
  let base :=
    [("dir", Config.DOWNLOADS_DIR_STR)]
    ++ (if url_info.file_name ≠ "" then [("out", url_info.file_name)] else [])
    ++ [("user-agent", Config.USER_AGENT)]
    ++ (if url_info.download_type = .http ∨ url_info.download_type = .https then
          [("max-connection-per-server", toString Config.MAX_CONNECTIONS_PER_SERVER),
           ("split", toString Config.MAX_CONNECTIONS_PER_SERVER)]
        else if url_info.download_type = .ftp ∨ url_info.download_type = .ftps then
          [("max-connection-per-server", "1"), ("split", "1")]
        else [])
    ++ [("timeout", toString Config.DOWNLOAD_TIMEOUT),
        ("max-tries", toString Config.MAX_RETRIES),
        ("retry-wait", toString Config.RETRY_WAIT)]
  dictUpdate base custom_options

/-- DownloadService._prepare_bt_options. -/
def DownloadService.prepare_bt_options
    (custom_options : List (String × String)) : List (String × String) :=
  let base :=
    [("dir", Config.DOWNLOADS_DIR_STR),
     ("bt-max-peers", toString Config.BT_MAX_PEERS),
     ("seed-ratio", Config.seedRatioText),
     ("seed-time", toString Config.SEED_TIME),
     ("enable-dht", "true"),
     ("enable-peer-exchange", "true"),
     ("bt-enable-lpd", "true")]
    ++ (match Config.BT_LISTEN_PORT with
        | some p => [("listen-port", toString p)]
        | none => [])
  dictUpdate base custom_options

/-- DownloadService.add_url: validate, build options, submit to the engine;
a validation failure returns INVALID_URL without any remote call, a missing
handle returns the engine-unavailable envelope ARIA2_ERROR. -/
def DownloadService.add_url (e : Engine) (url : String)
    (options : List (String × String)) : Envelope × List EngOp :=
  let url_info := UrlInfo.from_url url
  if !url_info.is_valid then
    ({ success := false, error := url_info.error_message, error_code := "INVALID_URL" }, [])
  else
    let download_options := DownloadService.prepare_download_options url_info options
    let (gid, tr) := Aria2Service.add_uri e [url] download_options
    match gid with
    | some g =>
      ({ success := true, task_id := g, url := url,
         download_type := url_info.download_type.val }, tr)
    | none =>
      ({ success := false, error := i18n_t "messages.aria2_unavailable",
         error_code := "ARIA2_ERROR" }, tr)

/-- DownloadService.add_magnet. -/
def DownloadService.add_magnet (e : Engine) (magnet_url : String)
    (options : List (String × String)) : Envelope × List EngOp :=
  let v := UrlValidator.validate_magnet magnet_url
  if !v.1 then
    ({ success := false, error := v.2, error_code := "INVALID_MAGNET" }, [])
  else
    let download_options := DownloadService.prepare_bt_options options
    let (gid, tr) := Aria2Service.add_uri e [magnet_url] download_options
    match gid with
    | some g =>
      ({ success := true, task_id := g, url := magnet_url, download_type := "magnet" }, tr)
    | none =>
      ({ success := false, error := i18n_t "messages.aria2_unavailable",
         error_code := "ARIA2_ERROR" }, tr)

/-- One per-item entry in the batch result list; the failure shape carries
url, success and error, the success shape url, success and task_id. -/
structure BatchItem where
  url : String
  success : Bool
  task_id : String := ""
  error : String := ""
deriving DecidableEq, Repr

/-- Envelope returned by DownloadService.add_batch_urls. -/
structure BatchEnvelope where
  success : Bool
  success_count : ℕ := 0
  fail_count : ℕ := 0
  total_count : ℕ := 0
  results : List BatchItem := []
  error : String := ""
  error_code : String := ""
deriving DecidableEq, Repr

/-- The sequential per-item loop of DownloadService.add_batch_urls: returns
the success count, the failure count, the result list and the engine trace. -/
def DownloadService.batchLoop (e : Engine) (options : List (String × String)) :
    List UrlInfo → ℕ × ℕ × List BatchItem × List EngOp
  | [] => (0, 0, [], [])
  | url_info :: rest =>
    let prev := DownloadService.batchLoop e options rest
    if url_info.is_valid then
      let r := DownloadService.add_url e url_info.url options
      if r.1.success then
        (prev.1 + 1, prev.2.1,
         { url := url_info.url, success := true, task_id := r.1.task_id } :: prev.2.2.1,
         r.2 ++ prev.2.2.2)
      else
        (prev.1, prev.2.1 + 1,
         { url := url_info.url, success := false, error := r.1.error } :: prev.2.2.1,
         r.2 ++ prev.2.2.2)
    else
      (prev.1, prev.2.1 + 1,
       { url := url_info.url, success := false,
         error := url_info.error_message } :: prev.2.2.1, prev.2.2.2)

/-- DownloadService.add_batch_urls: validate every locator independently,
run the single-add flow for each valid one, aggregate per-item results. -/
def DownloadService.add_batch_urls (e : Engine) (urls : List String)
    (options : List (String × String)) : BatchEnvelope × List EngOp :=
  let url_infos := UrlValidator.validate_url_list urls
  if url_infos.isEmpty then
    ({ success := false, error := i18n_t "messages.no_urls_found",
       error_code := "NO_URLS" }, [])
  else
    let (s, f, items, tr) := DownloadService.batchLoop e options url_infos
    ({ success := decide (0 < s), success_count := s, fail_count := f,
       total_count := url_infos.length, results := items }, tr)

/-- Envelope returned by DownloadService.get_downloads. -/
structure ListEnvelope where
  success : Bool
  downloads : List DownloadTask := []
  count : ℕ := 0
  error : String := ""
  error_code : String := ""
deriving DecidableEq, Repr

/-- DownloadService.get_downloads: fetch by status, then filter by category
when one is given, then cap the result count when the limit is positive. -/
def DownloadService.get_downloads (e : Engine) (status category : String)
    (limit : ℤ) : ListEnvelope × List EngOp :=
  let (fetched, tr) := Aria2Service.get_downloads e status
  let filtered := if category ≠ "" then fetched.filter (fun d => d.category = category)
                  else fetched
  let capped := if limit > 0 then filtered.take limit.toNat else filtered
  ({ success := true, downloads := capped, count := capped.length }, tr)

/-- DownloadService.retry_download: look the task up, force-remove the old
handle, then re-submit its source url through the magnet flow when the
reconciled kind is magnet and through the plain URL flow otherwise. -/
def DownloadService.retry_download (e : Engine) (gid : String) :
    Envelope × List EngOp :=
  let gd := Aria2Service.get_download e gid
  match gd.1 with
  | none =>
    ({ success := false, error := "Download not found", error_code := "NOT_FOUND" }, gd.2)
  | some download =>
    let rm := Aria2Service.remove_download e gid true
    let res :=
      if download.download_type = .magnet then DownloadService.add_magnet e download.url []
      else DownloadService.add_url e download.url []
    if res.1.success then
      ({ success := true, task_id := res.1.task_id,
         message := i18n_t "messages.download_started" }, gd.2 ++ rm.2 ++ res.2)
    else (res.1, gd.2 ++ rm.2 ++ res.2)

/-! ## Daemon lifecycle (Aria2Service.start_daemon)

The daemon world oracle gives the outcome of each successive
is_daemon_running health probe (probe k is the k-th probe the call makes,
counting from 0) and whether the session file already exists. -/

/-- Oracle for the process environment of start_daemon. -/
structure DaemonWorld where
  probe : ℕ → Bool
  sessionExists : Bool

/-- Primitive operations start_daemon can perform on the world. -/
inductive DaemonOp where
  | probeRpc
  | mkdirDownloads
  | touchSession
  | launchDetached
deriving DecidableEq, Repr

/-- Aria2Service._build_aria2_command.  The source builds the base command
list and then evaluates Aria2Config.get_config(); the class Aria2Config in
src/backend/config/aria2.py defines no attribute get_config (its methods are
get_daemon_args and get_rpc_params), so the call raises AttributeError
before any command list can be returned. -/
def Aria2Service.build_aria2_command : Except String (List String) :=
  .error "type object Aria2Config has no attribute get_config"

/-- The 30-iteration wait loop of start_daemon: sleep one second, then
probe, up to fuel times, starting at probe index i. -/
def Aria2Service.pollDaemon (w : DaemonWorld) : ℕ → ℕ → Bool
  | _, 0 => false
  | i, fuel + 1 => if w.probe i then true else Aria2Service.pollDaemon w (i + 1) fuel

/-- Aria2Service.start_daemon: immediate success when the daemon already
answers the health probe; otherwise ensure the downloads directory and the
session file exist, build the command, launch the daemon detached in its own
process group and poll the health probe up to 30 times.  Any exception in
the try block is caught and turned into a False return; the command builder
always raises, so the launch and the poll loop are dead code. -/
def Aria2Service.start_daemon (w : DaemonWorld) : Bool × List DaemonOp :=
  if w.probe 0 then (true, [.probeRpc])
  else
    let pre : List DaemonOp :=
      [.probeRpc, .mkdirDownloads] ++ (if w.sessionExists then [] else [.touchSession])
    match Aria2Service.build_aria2_command with
    | .error _ => (false, pre)
    | .ok _ =>
      (Aria2Service.pollDaemon w 1 30, pre ++ [.launchDetached]
        ++ List.replicate 30 DaemonOp.probeRpc)

/-! ## Helper lemmas -/

/-- Rounding to one decimal stays within [0, 100] on inputs in [0, 100]. -/
theorem round1_bounds (q : ℚ) (h0 : 0 ≤ q) (h1 : q ≤ 100) :
    0 ≤ round1 q ∧ round1 q ≤ 100 := by
  unfold round1
  have e : round (q * 10) = ⌊q * 10 + 1 / 2⌋ := round_eq _
  have hlo : (0 : ℤ) ≤ round (q * 10) := by
    rw [e]
    exact Int.le_floor.mpr (by push_cast; linarith)
  have hhi : round (q * 10) ≤ 1000 := by
    rw [e]
    have h2 : q * 10 + 1 / 2 ≤ (1000 : ℚ) + 1 / 2 := by linarith
    have h3 := Int.floor_le_floor h2
    have h4 : ⌊(1000 : ℚ) + 1 / 2⌋ = 1000 := by norm_num
    omega
  constructor
  · have : (0 : ℚ) ≤ (round (q * 10) : ℚ) := by exact_mod_cast hlo
    linarith
  · have : ((round (q * 10) : ℤ) : ℚ) ≤ 1000 := by exact_mod_cast hhi
    linarith

/-- Rounding zero to one decimal yields zero. -/
theorem round1_zero : round1 0 = 0 := by unfold round1; norm_num

/-- The progress field of every successfully reconciled task is the rounded
percentage when the total is positive and the rounded zero otherwise. -/
theorem progress_of_ok (r : Aria2Record) (t : DownloadTask)
    (h : DownloadTask.from_aria2_response r = .ok t) :
    t.progress = round1 (if r.totalLength > 0 then
      ((r.completedLength : ℤ) : ℚ) / ((r.totalLength : ℤ) : ℚ) * 100 else 0) := by
  unfold DownloadTask.from_aria2_response at h
  cases hf : r.files with
  | none => rw [hf] at h; cases h; rfl
  | some l =>
    cases l with
    | nil => rw [hf] at h; cases h
    | cons f rest => rw [hf] at h; cases h; rfl

/-- Structural properties of the batch loop: the two counters sum to the
number of processed locators, the result list has one entry per locator, and
every invalid locator contributes its failure entry. -/
theorem batchLoop_spec (e : Engine) (options : List (String × String)) (infos : List UrlInfo) :
    (DownloadService.batchLoop e options infos).1 +
      (DownloadService.batchLoop e options infos).2.1 = infos.length ∧
    (DownloadService.batchLoop e options infos).2.2.1.length = infos.length ∧
    (∀ info ∈ infos, info.is_valid = false →
      ({ url := info.url, success := false, error := info.error_message } : BatchItem)
        ∈ (DownloadService.batchLoop e options infos).2.2.1) := by
  induction infos with
  | nil => simp [DownloadService.batchLoop]
  | cons info rest ih =>
    obtain ⟨ih1, ih2, ih3⟩ := ih
    have memCase : ∀ i : UrlInfo, i ∈ info :: rest → i.is_valid = false →
        ∀ items : List BatchItem,
        (i = info →
          ({ url := i.url, success := false, error := i.error_message } : BatchItem) ∈ items) →
        (∀ j : UrlInfo, j ∈ rest → j.is_valid = false →
          ({ url := j.url, success := false, error := j.error_message } : BatchItem) ∈ items) →
        ({ url := i.url, success := false, error := i.error_message } : BatchItem) ∈ items := by
      intro i hmem hvi items hhead htail
      rcases List.mem_cons.mp hmem with h1 | h1
      · exact hhead h1
      · exact htail i h1 hvi
    by_cases hv : info.is_valid
    · by_cases hs : (DownloadService.add_url e info.url options).1.success
      · refine ⟨?_, ?_, ?_⟩
        · simp only [DownloadService.batchLoop, if_pos hv, if_pos hs, List.length_cons]
          omega
        · simp only [DownloadService.batchLoop, if_pos hv, if_pos hs, List.length_cons, ih2]
        · intro i hmem hvi
          refine memCase i hmem hvi _ (fun heq => ?_) (fun j hj hvj => ?_)
          · rw [heq] at hvi; rw [hvi] at hv; simp at hv
          · simp only [DownloadService.batchLoop, if_pos hv, if_pos hs]
            exact List.mem_cons_of_mem _ (ih3 j hj hvj)
      · refine ⟨?_, ?_, ?_⟩
        · simp only [DownloadService.batchLoop, if_pos hv, if_neg hs, List.length_cons]
          omega
        · simp only [DownloadService.batchLoop, if_pos hv, if_neg hs, List.length_cons, ih2]
        · intro i hmem hvi
          refine memCase i hmem hvi _ (fun heq => ?_) (fun j hj hvj => ?_)
          · rw [heq] at hvi; rw [hvi] at hv; simp at hv
          · simp only [DownloadService.batchLoop, if_pos hv, if_neg hs]
            exact List.mem_cons_of_mem _ (ih3 j hj hvj)
    · refine ⟨?_, ?_, ?_⟩
      · simp only [DownloadService.batchLoop, if_neg hv, List.length_cons]
        omega
      · simp only [DownloadService.batchLoop, if_neg hv, List.length_cons, ih2]
      · intro i hmem hvi
        refine memCase i hmem hvi _ (fun heq => ?_) (fun j hj hvj => ?_)
        · subst heq
          simp only [DownloadService.batchLoop, if_neg hv]
          exact List.mem_cons_self _ _
        · simp only [DownloadService.batchLoop, if_neg hv]
          exact List.mem_cons_of_mem _ (ih3 j hj hvj)

/-! ## Claim theorems -/

/-- Claim C6: kind detection checks, case-insensitively and in this order
with first match winning, the prefixes magnet:, https:, http:, ftps:, ftp:,
then a filename ending in .torrent, and classifies anything else (including
the empty string) as http.  The source translation coincides with the
specification-worded detector on every input. -/
theorem C6_detect_type :
    (∀ url, DownloadTask.detect_download_type url = detect_download_type_spec url) ∧
    DownloadTask.detect_download_type "" = .http := by
  constructor
  · intro url
    by_cases h : url = ""
    · subst h; decide
    · simp [DownloadTask.detect_download_type, detect_download_type_spec, h]
  · decide

/-- Witness for C6 at concrete inputs. -/
theorem C6_detect_type_witness :
    DownloadTask.detect_download_type "HTTPS://Example.COM/x" =
      detect_download_type_spec "HTTPS://Example.COM/x" ∧
    DownloadTask.detect_download_type "file.ToRReNT" =
      detect_download_type_spec "file.ToRReNT" :=
  ⟨C6_detect_type.1 "HTTPS://Example.COM/x", C6_detect_type.1 "file.ToRReNT"⟩

/-- Claim C7: magnet validation accepts exactly the strings that start with
magnet: and contain xt=; a string without the magnet: prefix is rejected
with the wrong-format message, a string with the prefix but without xt= is
rejected with the missing-hash message, and the two messages differ. -/
theorem C7_validate_magnet (s : String) :
    ((UrlValidator.validate_magnet s).1 = true ↔
      (strStarts s "magnet:" = true ∧ strContains s "xt=" = true)) ∧
    (strStarts s "magnet:" = false →
      UrlValidator.validate_magnet s = (false, "Invalid magnet link format")) ∧
    (strStarts s "magnet:" = true → strContains s "xt=" = false →
      UrlValidator.validate_magnet s = (false, "Magnet link missing hash information")) ∧
    ("Invalid magnet link format" : String) ≠ "Magnet link missing hash information" := by
  have hxt : ("xt" ++ "=" : String) = "xt=" := rfl
  unfold UrlValidator.validate_magnet
  by_cases h1 : strStarts s "magnet:" <;> by_cases h2 : strContains s "xt=" <;>
    simp [h1, h2, hxt]

/-- Witness for C7 on the three example locators of the specification. -/
theorem C7_validate_magnet_witness :
    (UrlValidator.validate_magnet "magnet:?xt=urn:btih:ABC").1 = true ∧
    UrlValidator.validate_magnet "magnet:?dn=foo" =
      (false, "Magnet link missing hash information") ∧
    UrlValidator.validate_magnet "http://x" = (false, "Invalid magnet link format") :=
  ⟨(C7_validate_magnet "magnet:?xt=urn:btih:ABC").1.mpr ⟨by decide, by decide⟩,
   (C7_validate_magnet "magnet:?dn=foo").2.2.1 (by decide) (by decide),
   (C7_validate_magnet "http://x").2.1 (by decide)⟩

/-- Claim C3 counterexample: on (total 1000, completed 0, speed 10) the
remaining time is 100 seconds, which both ETA implementations render with a
minutes unit, never as the string 100s. -/
theorem C3_eta_counterexample :
    DownloadTask.calculate_eta 1000 0 10 = "1m" ∧
    DownloadTask.calculate_eta 1000 0 10 ≠ "100s" ∧
    TimeFormatter.format_eta 1000 0 10 = "1m 40s" ∧
    TimeFormatter.format_eta 1000 0 10 ≠ "100s" := by
  have h1 : DownloadTask.calculate_eta 1000 0 10 = "1m" := by
    unfold DownloadTask.calculate_eta
    norm_num
    decide
  have h2 : TimeFormatter.format_eta 1000 0 10 = "1m 40s" := by
    unfold TimeFormatter.format_eta TimeFormatter.format_duration
    norm_num
    decide
  exact ⟨h1, by rw [h1]; decide, h2, by rw [h2]; decide⟩

/-- Claim C3 as amended: the derived ETA for (total 1000, completed 0,
speed 0) is unknown, for (total 1000, completed 1000, speed 10) it is
unknown, and for (total 1000, completed 0, speed 10) it is the string 1m
(100 remaining seconds are rendered in whole minutes once at least 60). -/
theorem C3_eta_values :
    DownloadTask.calculate_eta 1000 0 0 = "unknown" ∧
    DownloadTask.calculate_eta 1000 1000 10 = "unknown" ∧
    DownloadTask.calculate_eta 1000 0 10 = "1m" := by
  refine ⟨?_, ?_, ?_⟩
  · unfold DownloadTask.calculate_eta
    norm_num
  · unfold DownloadTask.calculate_eta
    norm_num
  · unfold DownloadTask.calculate_eta
    norm_num
    decide

/-- Record with byte counters violating total ≥ completed ≥ 0, used to
refute claim C4 as stated. -/
def c4rec : Aria2Record := { totalLength := 200, completedLength := 300 }

/-- Task reconciled from c4rec. -/
def c4task : DownloadTask := DownloadTask.reconcile c4rec "" ""

/-- Claim C4 counterexample: a raw engine record with completed 300 and
total 200 reconciles to progress 150, outside the claimed range 0 to 100 —
the source never clamps the quotient. -/
theorem C4_progress_counterexample :
    DownloadTask.from_aria2_response c4rec = .ok c4task ∧
    c4task.progress = 150 ∧ ¬(c4task.progress ≤ 100) := by
  have hp : c4task.progress = round1 (if (200 : ℤ) > 0 then
      ((300 : ℤ) : ℚ) / ((200 : ℤ) : ℚ) * 100 else 0) := rfl
  have h150 : c4task.progress = 150 := by
    rw [hp, if_pos (by norm_num)]
    unfold round1
    norm_num
  exact ⟨rfl, h150, by rw [h150]; norm_num⟩

/-- Claim C4 as amended: for every raw engine record whose byte counters
satisfy 0 ≤ completed ≤ total, the progress of the reconciled task lies
between 0 and 100 inclusive. -/
theorem C4_progress_bounded (r : Aria2Record) (t : DownloadTask)
    (hok : DownloadTask.from_aria2_response r = .ok t)
    (h0 : 0 ≤ r.completedLength) (h1 : r.completedLength ≤ r.totalLength) :
    0 ≤ t.progress ∧ t.progress ≤ 100 := by
  rw [progress_of_ok r t hok]
  by_cases hpos : r.totalLength > 0
  · rw [if_pos hpos]
    have ht : (0 : ℚ) < ((r.totalLength : ℤ) : ℚ) := by exact_mod_cast hpos
    have hc : (0 : ℚ) ≤ ((r.completedLength : ℤ) : ℚ) := by exact_mod_cast h0
    have hle : ((r.completedLength : ℤ) : ℚ) ≤ ((r.totalLength : ℤ) : ℚ) := by
      exact_mod_cast h1
    apply round1_bounds
    · positivity
    · have hdiv : ((r.completedLength : ℤ) : ℚ) / ((r.totalLength : ℤ) : ℚ) ≤ 1 :=
        (div_le_one ht).mpr hle
      linarith
  · rw [if_neg hpos, round1_zero]
    norm_num

/-- Record satisfying the amended C4 hypotheses. -/
def c4brec : Aria2Record := { totalLength := 200, completedLength := 50 }

/-- Task reconciled from c4brec. -/
def c4btask : DownloadTask := DownloadTask.reconcile c4brec "" ""

/-- Witness for the amended C4 at a concrete record. -/
theorem C4_progress_bounded_witness :
    (0 : ℤ) ≤ c4brec.completedLength ∧ c4brec.completedLength ≤ c4brec.totalLength ∧
    0 ≤ c4btask.progress ∧ c4btask.progress ≤ 100 :=
  ⟨by decide, by decide, (C4_progress_bounded c4brec c4btask rfl (by decide) (by decide)).1,
   (C4_progress_bounded c4brec c4btask rfl (by decide) (by decide)).2⟩

/-- Record with total 200 and completed 50, the first C8 example. -/
def c8rec : Aria2Record := { totalLength := 200, completedLength := 50 }

/-- Task reconciled from c8rec. -/
def c8task : DownloadTask := DownloadTask.reconcile c8rec "" ""

/-- Record with all counters zero, the second C8 example. -/
def c8rec0 : Aria2Record := {}

/-- Task reconciled from c8rec0. -/
def c8task0 : DownloadTask := DownloadTask.reconcile c8rec0 "" ""

/-- Claim C8: reconciliation computes progress as completed/total*100
rounded to one decimal whenever total is positive and as exactly 0 whenever
it is not (as does the shared ProgressFormatter.format_progress utility);
in particular (total 200, completed 50) gives 25.0 and (total 0,
completed 0) gives 0.0. -/
theorem C8_progress :
    (∀ r t, DownloadTask.from_aria2_response r = .ok t →
      (r.totalLength > 0 →
        t.progress = round1 (((r.completedLength : ℤ) : ℚ) / ((r.totalLength : ℤ) : ℚ) * 100)) ∧
      (r.totalLength ≤ 0 → t.progress = 0)) ∧
    (∀ completed total : ℤ, 0 < total →
      ProgressFormatter.format_progress completed total =
        round1 (((completed : ℤ) : ℚ) / ((total : ℤ) : ℚ) * 100)) ∧
    (∀ completed total : ℤ, total ≤ 0 → ProgressFormatter.format_progress completed total = 0) ∧
    ProgressFormatter.format_progress 50 200 = 25 ∧
    ProgressFormatter.format_progress 0 0 = 0 ∧
    DownloadTask.from_aria2_response c8rec = .ok c8task ∧ c8task.progress = 25 ∧
    DownloadTask.from_aria2_response c8rec0 = .ok c8task0 ∧ c8task0.progress = 0 := by
  refine ⟨fun r t hok => ⟨fun hpos => ?_, fun hneg => ?_⟩,
    fun c t ht => ?_, fun c t ht => ?_, ?_, ?_, rfl, ?_, rfl, ?_⟩
  · rw [progress_of_ok r t hok, if_pos hpos]
  · rw [progress_of_ok r t hok, if_neg (by omega), round1_zero]
  · unfold ProgressFormatter.format_progress
    rw [if_neg (by omega)]
  · unfold ProgressFormatter.format_progress
    rw [if_pos ht]
  · unfold ProgressFormatter.format_progress round1
    norm_num
  · unfold ProgressFormatter.format_progress
    norm_num
  · have hp : c8task.progress = round1 (if (200 : ℤ) > 0 then
        ((50 : ℤ) : ℚ) / ((200 : ℤ) : ℚ) * 100 else 0) := rfl
    rw [hp, if_pos (by norm_num)]
    unfold round1
    norm_num
  · have hp : c8task0.progress = round1 (if (0 : ℤ) > 0 then
        ((0 : ℤ) : ℚ) / ((0 : ℤ) : ℚ) * 100 else 0) := rfl
    rw [hp, if_neg (by norm_num), round1_zero]

/-- Witness for C8 at the concrete record c8rec. -/
theorem C8_progress_witness :
    c8rec.totalLength > 0 ∧
    c8task.progress =
      round1 (((c8rec.completedLength : ℤ) : ℚ) / ((c8rec.totalLength : ℤ) : ℚ) * 100) :=
  ⟨by decide, (C8_progress.1 c8rec c8task rfl).1 (by decide)⟩

/-- Engine oracle accepting every submission with the handle g1 but holding
no tasks; used for the C5 batch example. -/
def c5engine : Engine :=
  { addUriResp := fun _ _ => some "g1", tellStatusResp := fun _ => none,
    active := none, waiting := none, stopped := none, removeResp := fun _ _ => none }

/-- The three-locator batch of the specification example: two well-formed
URLs and one malformed locator. -/
def c5urls : List String := ["http://example.com/a.mp4", "not a url", "https://example.org/b"]

/-- Claim C5: batch add validates every locator independently, retains each
invalid locator in the per-item result list with its error message, runs the
single-add flow for the valid ones, and returns an envelope whose success
and failure counts sum to the total count with overall success iff at least
one item succeeded; on the three-locator example with one malformed entry
and an accepting engine the counts are 2, 1, 3 with overall success. -/
theorem C5_add_batch :
    (∀ (e : Engine) (urls : List String) (options : List (String × String)),
      UrlValidator.validate_url_list urls ≠ [] →
      (DownloadService.add_batch_urls e urls options).1.success_count +
        (DownloadService.add_batch_urls e urls options).1.fail_count =
        (DownloadService.add_batch_urls e urls options).1.total_count ∧
      (DownloadService.add_batch_urls e urls options).1.total_count =
        (UrlValidator.validate_url_list urls).length ∧
      (DownloadService.add_batch_urls e urls options).1.results.length =
        (UrlValidator.validate_url_list urls).length ∧
      ((DownloadService.add_batch_urls e urls options).1.success = true ↔
        0 < (DownloadService.add_batch_urls e urls options).1.success_count) ∧
      (∀ info ∈ UrlValidator.validate_url_list urls, info.is_valid = false →
        ({ url := info.url, success := false, error := info.error_message } : BatchItem)
          ∈ (DownloadService.add_batch_urls e urls options).1.results)) ∧
    (DownloadService.add_batch_urls c5engine c5urls []).1.success_count = 2 ∧
    (DownloadService.add_batch_urls c5engine c5urls []).1.fail_count = 1 ∧
    (DownloadService.add_batch_urls c5engine c5urls []).1.total_count = 3 ∧
    (DownloadService.add_batch_urls c5engine c5urls []).1.success = true := by
  refine ⟨fun e urls options hne => ?_, by decide, by decide, by decide, by decide⟩
  have hie : (UrlValidator.validate_url_list urls).isEmpty = false := by
    cases hl : UrlValidator.validate_url_list urls with
    | nil => exact absurd hl hne
    | cons a l => rfl
  obtain ⟨hb1, hb2, hb3⟩ := batchLoop_spec e options (UrlValidator.validate_url_list urls)
  have henv : (DownloadService.add_batch_urls e urls options).1 =
      { success := decide
          (0 < (DownloadService.batchLoop e options (UrlValidator.validate_url_list urls)).1),
        success_count :=
          (DownloadService.batchLoop e options (UrlValidator.validate_url_list urls)).1,
        fail_count :=
          (DownloadService.batchLoop e options (UrlValidator.validate_url_list urls)).2.1,
        total_count := (UrlValidator.validate_url_list urls).length,
        results :=
          (DownloadService.batchLoop e options (UrlValidator.validate_url_list urls)).2.2.1 } := by
    simp only [DownloadService.add_batch_urls, hie, Bool.false_eq_true, if_false]
  rw [henv]
  exact ⟨hb1, rfl, hb2, by simp, hb3⟩

/-- Witness for C5, applying the general statement to the example batch. -/
theorem C5_add_batch_witness :
    UrlValidator.validate_url_list c5urls ≠ [] ∧
    (DownloadService.add_batch_urls c5engine c5urls []).1.success_count +
      (DownloadService.add_batch_urls c5engine c5urls []).1.fail_count =
      (DownloadService.add_batch_urls c5engine c5urls []).1.total_count :=
  ⟨by decide, (C5_add_batch.1 c5engine c5urls [] (by decide)).1⟩

/-- Engine oracle on which every remote call fails (transport unreachable). -/
def c1engine : Engine :=
  { addUriResp := fun _ _ => none, tellStatusResp := fun _ => none,
    active := none, waiting := none, stopped := none, removeResp := fun _ _ => none }

/-- Claim C1 counterexample: with the engine unreachable, add_url on a valid
URL performs zero start-and-wait restart cycles — not the claimed exactly
one — before returning the engine-unavailable envelope. -/
theorem C1_no_restart_counterexample :
    (DownloadService.add_url c1engine "http://example.com/file.zip" []).2.count
      EngOp.startDaemon = 0 ∧
    (DownloadService.add_url c1engine "http://example.com/file.zip" []).2.count
      EngOp.startDaemon ≠ 1 ∧
    (DownloadService.add_url c1engine "http://example.com/file.zip" []).1 =
      { success := false, error := i18n_t "messages.aria2_unavailable",
        error_code := "ARIA2_ERROR" } := by
  refine ⟨by decide, by decide, by decide⟩

/-- Claim C1 as amended: no daemon restart is ever attempted by add_url —
its engine trace contains zero start-and-wait cycles — and when the remote
add call yields no handle for a valid URL the engine-unavailable envelope
is returned directly. -/
theorem C1_no_restart (e : Engine) (url : String) (options : List (String × String)) :
    (DownloadService.add_url e url options).2.count EngOp.startDaemon = 0 ∧
    ((UrlInfo.from_url url).is_valid = true →
      e.addUriResp [url]
        (DownloadService.prepare_download_options (UrlInfo.from_url url) options) = none →
      DownloadService.add_url e url options =
        ({ success := false, error := i18n_t "messages.aria2_unavailable",
           error_code := "ARIA2_ERROR" }, [EngOp.rpc "aria2.addUri"])) := by
  by_cases hv : (UrlInfo.from_url url).is_valid
  · constructor
    · simp only [DownloadService.add_url, Aria2Service.add_uri, hv, Bool.not_true,
        Bool.false_eq_true, if_false]
      cases hr : e.addUriResp [url]
          (DownloadService.prepare_download_options (UrlInfo.from_url url) options) with
      | none => simp [List.count]
      | some g =>
        by_cases hg : g = "" <;> simp [hg, List.count]
    · intro _ hnone
      simp only [DownloadService.add_url, Aria2Service.add_uri, hv, Bool.not_true,
        Bool.false_eq_true, if_false, hnone]
  · constructor
    · simp only [DownloadService.add_url, Aria2Service.add_uri]
      rw [Bool.not_eq_true] at hv
      simp [hv, List.count]
    · intro hvt
      rw [hvt] at hv
      exact absurd rfl hv

/-- Witness for the amended C1 at a concrete unreachable engine. -/
theorem C1_no_restart_witness :
    (UrlInfo.from_url "http://example.com/file.zip").is_valid = true ∧
    DownloadService.add_url c1engine "http://example.com/file.zip" [] =
      ({ success := false, error := i18n_t "messages.aria2_unavailable",
         error_code := "ARIA2_ERROR" }, [EngOp.rpc "aria2.addUri"]) :=
  ⟨by decide,
   (C1_no_restart c1engine "http://example.com/file.zip" []).2 (by decide) rfl⟩

/-- Claim C2 (code bug): start_daemon is a no-op success when the health
probe already answers, but when it does not, the call always returns False
without launching anything: the command builder raises before the launch,
so the detached launch and the 30-poll wait are unreachable. -/
theorem C2_start_daemon (w : DaemonWorld) :
    (w.probe 0 = true → Aria2Service.start_daemon w = (true, [DaemonOp.probeRpc])) ∧
    (w.probe 0 = false →
      Aria2Service.start_daemon w =
        (false, [DaemonOp.probeRpc, DaemonOp.mkdirDownloads]
          ++ (if w.sessionExists then [] else [DaemonOp.touchSession])) ∧
      (Aria2Service.start_daemon w).2.count DaemonOp.launchDetached = 0) := by
  constructor
  · intro h
    simp [Aria2Service.start_daemon, h]
  · intro h
    refine ⟨?_, ?_⟩
    · simp [Aria2Service.start_daemon, h, Aria2Service.build_aria2_command]
    · simp only [Aria2Service.start_daemon, h, Aria2Service.build_aria2_command,
        Bool.false_eq_true, if_false]
      cases hs : w.sessionExists <;> simp [List.count]

/-- World in which the daemon answers the first probe. -/
def c2worldUp : DaemonWorld := { probe := fun _ => true, sessionExists := true }

/-- World in which the daemon never answers a probe. -/
def c2worldDown : DaemonWorld := { probe := fun _ => false, sessionExists := true }

/-- Witness for C2 at the two concrete worlds. -/
theorem C2_start_daemon_witness :
    Aria2Service.start_daemon c2worldUp = (true, [DaemonOp.probeRpc]) ∧
    (Aria2Service.start_daemon c2worldDown).1 = false ∧
    (Aria2Service.start_daemon c2worldDown).2.count DaemonOp.launchDetached = 0 :=
  ⟨(C2_start_daemon c2worldUp).1 rfl,
   by rw [((C2_start_daemon c2worldDown).2 rfl).1],
   ((C2_start_daemon c2worldDown).2 rfl).2⟩

/-- Claim C9: listing queries the waiting and stopped queues with the fixed
window offset 0 count 100, so at most the first 100 waiting and first 100
stopped records are fetched under every status filter, regardless of the
caller-supplied limit; the category filter and the limit cap apply only
after this truncated fetch. -/
theorem C9_pagination (e : Engine) (category : String) (limit : ℤ) (status : String) :
    (Aria2Service.get_downloads e "waiting").1.length ≤ 100 ∧
    (Aria2Service.get_downloads e "stopped").1.length ≤ 100 ∧
    (Aria2Service.get_downloads e "all").1 =
      reconcileList ((e.active.getD []) ++ (e.waiting.getD []).take 100
        ++ (e.stopped.getD []).take 100) ∧
    (DownloadService.get_downloads e status category limit).1.downloads =
      (if limit > 0 then
        (if category ≠ "" then
          ((Aria2Service.get_downloads e status).1).filter (fun d => d.category = category)
         else (Aria2Service.get_downloads e status).1).take limit.toNat
       else
        (if category ≠ "" then
          ((Aria2Service.get_downloads e status).1).filter (fun d => d.category = category)
         else (Aria2Service.get_downloads e status).1)) := by
  have hwin : ∀ o : Option (List Aria2Record),
      ((o.map (fun l => l.take 100)).getD []) = (o.getD []).take 100 := by
    intro o
    cases o <;> simp
  refine ⟨?_, ?_, ?_, ?_⟩
  · simp [Aria2Service.get_downloads, Aria2Service.tellWaiting]
    rw [hwin]
    exact le_trans (List.length_filterMap_le _ _) (List.length_take_le _ _)
  · simp [Aria2Service.get_downloads, Aria2Service.tellStopped]
    rw [hwin]
    exact le_trans (List.length_filterMap_le _ _) (List.length_take_le _ _)
  · simp [Aria2Service.get_downloads, Aria2Service.tellActive,
      Aria2Service.tellWaiting, Aria2Service.tellStopped]
    rw [hwin, hwin]
  · rfl

/-- Engine with empty reachable queues, used as the C9 witness input. -/
def c9engine : Engine :=
  { addUriResp := fun _ _ => none, tellStatusResp := fun _ => none,
    active := some [], waiting := some [], stopped := some [],
    removeResp := fun _ _ => none }

/-- Witness for C9 at a concrete engine. -/
theorem C9_pagination_witness :
    (Aria2Service.get_downloads c9engine "waiting").1.length ≤ 100 ∧
    (Aria2Service.get_downloads c9engine "stopped").1.length ≤ 100 :=
  ⟨(C9_pagination c9engine "" 5 "waiting").1, (C9_pagination c9engine "" 5 "waiting").2.1⟩

/-- Claim C10: retry dispatches only on whether the reconciled kind is
magnet — every non-magnet task is re-submitted through the URL add flow
with the reconciled source url after the old handle is force-removed — and
when the engine record carries no uri the reconciled url is empty, so the
re-add fails validation with URL cannot be empty under INVALID_URL after
the force-remove has already been issued, with no further engine call that
could restore the removed task. -/
theorem C10_retry :
    (∀ (e : Engine) (gid : String) (d : DownloadTask),
      (Aria2Service.get_download e gid).1 = some d →
      d.download_type ≠ DownloadType.magnet →
      DownloadService.retry_download e gid =
        (if (DownloadService.add_url e d.url []).1.success then
          ({ success := true, task_id := (DownloadService.add_url e d.url []).1.task_id,
             message := i18n_t "messages.download_started" } : Envelope)
         else (DownloadService.add_url e d.url []).1,
         [EngOp.rpc "aria2.tellStatus", EngOp.rpc "aria2.forceRemove"]
           ++ (DownloadService.add_url e d.url []).2)) ∧
    (∀ (e : Engine) (gid : String) (rec : Aria2Record),
      e.tellStatusResp gid = some rec →
      (rec.files = none ∨ ∃ f fs, rec.files = some (f :: fs) ∧ f.uris = []) →
      (∃ d, (Aria2Service.get_download e gid).1 = some d ∧ d.url = "" ∧
        d.download_type = DownloadType.http) ∧
      DownloadService.retry_download e gid =
        ({ success := false, error := "URL cannot be empty", error_code := "INVALID_URL" },
         [EngOp.rpc "aria2.tellStatus", EngOp.rpc "aria2.forceRemove"])) := by
  have hmain : ∀ (e : Engine) (gid : String) (d : DownloadTask),
      (Aria2Service.get_download e gid).1 = some d →
      d.download_type ≠ DownloadType.magnet →
      DownloadService.retry_download e gid =
        (if (DownloadService.add_url e d.url []).1.success then
          ({ success := true, task_id := (DownloadService.add_url e d.url []).1.task_id,
             message := i18n_t "messages.download_started" } : Envelope)
         else (DownloadService.add_url e d.url []).1,
         [EngOp.rpc "aria2.tellStatus", EngOp.rpc "aria2.forceRemove"]
           ++ (DownloadService.add_url e d.url []).2) := by
    intro e gid d hd hmag
    have htr : (Aria2Service.get_download e gid).2 = [EngOp.rpc "aria2.tellStatus"] := rfl
    simp only [DownloadService.retry_download, hd, htr, Aria2Service.remove_download,
      if_neg hmag]
    by_cases hs : (DownloadService.add_url e d.url []).1.success
    · simp [hs]
    · simp [hs]
  refine ⟨hmain, ?_⟩
  intro e gid rec hts hnou
  have hok : DownloadTask.from_aria2_response rec = .ok (DownloadTask.reconcile rec "" "") ∨
      ∃ f rest, rec.files = some (f :: rest) ∧
        DownloadTask.from_aria2_response rec = .ok (DownloadTask.reconcile rec "" f.path) := by
    rcases hnou with hn | ⟨f, fs, hfs, hur⟩
    · left
      simp [DownloadTask.from_aria2_response, hn]
    · right
      exact ⟨f, fs, hfs, by simp [DownloadTask.from_aria2_response, hfs, hur]⟩
  have hget : ∃ p, (Aria2Service.get_download e gid).1 =
      some (DownloadTask.reconcile rec "" p) := by
    rcases hok with h | ⟨f, rest, hfs, h⟩
    · exact ⟨"", by simp [Aria2Service.get_download, hts, h, Except.toOption]⟩
    · exact ⟨f.path, by simp [Aria2Service.get_download, hts, h, Except.toOption]⟩
  obtain ⟨p, hp⟩ := hget
  have hurl : (DownloadTask.reconcile rec "" p).url = "" := rfl
  have hdt : (DownloadTask.reconcile rec "" p).download_type = DownloadType.http := rfl
  refine ⟨⟨DownloadTask.reconcile rec "" p, hp, hurl, hdt⟩, ?_⟩
  have haddu : DownloadService.add_url e "" [] =
      ({ success := false, error := "URL cannot be empty", error_code := "INVALID_URL" },
       ([] : List EngOp)) := rfl
  have := hmain e gid (DownloadTask.reconcile rec "" p) hp (by rw [hdt]; decide)
  rw [this, hurl, haddu]
  simp

/-- Record for a task whose engine record carries no files entry. -/
def c10rec : Aria2Record := { gid := "t1", status := "error" }

/-- Engine holding exactly the task t1, echoing removals. -/
def c10engine : Engine :=
  { addUriResp := fun _ _ => none,
    tellStatusResp := fun g => if g = "t1" then some c10rec else none,
    active := none, waiting := none, stopped := none,
    removeResp := fun _ g => some g }

/-- Witness for C10: retrying t1 on the concrete engine force-removes the
handle and then fails the re-add with the empty-URL validation error. -/
theorem C10_retry_witness :
    c10engine.tellStatusResp "t1" = some c10rec ∧
    c10rec.files = none ∧
    DownloadService.retry_download c10engine "t1" =
      ({ success := false, error := "URL cannot be empty", error_code := "INVALID_URL" },
       [EngOp.rpc "aria2.tellStatus", EngOp.rpc "aria2.forceRemove"]) :=
  ⟨rfl, rfl, (C10_retry.2 c10engine "t1" c10rec rfl (Or.inl rfl)).2⟩
